import Mathlib

/-!
Verification development for the Wakefit GMB pipeline (src/main.py).

The pipeline is a linear ETL sequence: extract a place identifier from a
store-locator URL, query an enrichment oracle per row, left-join the
results onto the input table, compute segment KPIs, and write dated
worksheets.  External services (the places oracle and the tabular store)
are modelled as explicit function arguments and a workbook state value.
Python scalars (strings, numbers, None / NaN) are modelled by the
inductive type PyVal; pandas missing values and Python None are both
represented by PyVal.vNone, since the code treats them alike.
-/

/-- Model of a dynamically typed Python scalar as it flows through the
pipeline: None / NaN, a string, an int, or a float (modelled as Rat). -/
inductive PyVal where
  | vNone : PyVal
  | vStr (s : String) : PyVal
  | vInt (n : Int) : PyVal
  | vRat (q : Rat) : PyVal
deriving DecidableEq

/-- Python truthiness for the values above: None, the empty string and
numeric zero are falsy. -/
def pyFalsy : PyVal → Bool
  | .vNone => true
  | .vStr s => s == ""
  | .vInt n => n == 0
  | .vRat q => q == 0

/-- Model of str(x) for the values above. -/
def pyStr : PyVal → String
  | .vNone => "None"
  | .vStr s => s
  | .vInt n => toString n
  | .vRat q => toString q

/-- Boolean list-prefix test (needle, haystack). -/
def startsWith : List Char → List Char → Bool
  | [], _ => true
  | _ :: _, [] => false
  | a :: as, b :: bs => a == b && startsWith as bs

/-- Python substring containment test (needle in haystack). -/
def containsSub (n : List Char) : List Char → Bool
  | [] => startsWith n []
  | c :: cs => startsWith n (c :: cs) || containsSub n cs

/-- Python str.split on a single separator character; keeps empty pieces. -/
def splitOnChar (sep : Char) : List Char → List (List Char)
  | [] => [[]]
  | c :: cs =>
    if c == sep then [] :: splitOnChar sep cs
    else
      match splitOnChar sep cs with
      | [] => [[c]]
      | h :: t => (c :: h) :: t

def placeIdMarker : List Char := "place_id:".data

def placeSegmentMarker : List Char := "/place/".data

def httpsMarker : List Char := "https://".data

/-- The regex character class in place_id:([^&.?]+). -/
def isDelim (c : Char) : Bool := c == '&' || c == '.' || c == '?'

/-- Embedding of re.search with the pattern place_id:([^&.?]+): the engine
scans positions left to right and succeeds at the first position where the
literal marker is followed by at least one character outside the class;
the capture is the maximal such run. -/
def reSearchPlaceId : List Char → Option (List Char)
  | [] => none
  | c :: cs =>
    if startsWith placeIdMarker (c :: cs) then
      let cap := ((c :: cs).drop placeIdMarker.length).takeWhile (fun d => !isDelim d)
      if cap.isEmpty then reSearchPlaceId cs else some cap
    else reSearchPlaceId cs

/-- part.split(chr63)[0].split(chr33)[0]: the prefix of a URL segment before
the first question mark, then before the first exclamation mark. -/
def stripSegmentSuffix (p : List Char) : List Char :=
  (p.takeWhile (fun c => c != '?')).takeWhile (fun c => c != '!')

/-- The candidate test in the /place/ scan: starts with ChIJ or GhIJ and is
longer than 20 characters. -/
def isPlausibleId (p : List Char) : Bool :=
  (startsWith "ChIJ".data p || startsWith "GhIJ".data p) && decide (p.length > 20)

/-- The for-loop over reversed(parts) in extract_place_id_from_url. -/
def scanSegments : List (List Char) → Option (List Char)
  | [] => none
  | p :: ps =>
    let pid := stripSegmentSuffix p
    if isPlausibleId pid then some pid else scanSegments ps

/-- Embedding of extract_place_id_from_url (src/main.py lines 16-26). -/
def extract_place_id_from_url : PyVal → Option String
  | .vStr s =>
    let cs := s.data
    match reSearchPlaceId cs with
    | some cap => some ⟨cap⟩
    | none =>
      if !containsSub placeIdMarker cs && containsSub placeSegmentMarker cs then
        (scanSegments (splitOnChar '/' cs).reverse).map (fun l => (⟨l⟩ : String))
      else none
  | _ => none

/-- The fields of the result dict in an oracle response, as read by
result.get: a key that is absent and a key holding None are both vNone. -/
structure OracleResult where
  userRatingsTotal : PyVal
  rating : PyVal
  businessStatus : PyVal
deriving DecidableEq

/-- One response of the enrichment oracle (gmaps_client.place): either a
returned dict with an optional status string and an optional result dict,
or a raised transport / client fault with its stringified message. -/
inductive OracleResponse where
  | resp (status : Option String) (result : Option OracleResult) : OracleResponse
  | exn (msg : String) : OracleResponse
deriving DecidableEq

/-- The two dict shapes returned by get_store_details: the success dict
carries the keys Total Reviews, Rating, Api Business Status (values may be
vNone when the oracle omitted them) with Error = None; the failure dict
carries only the original value and an error string. -/
inductive EnrichmentResult where
  | success (originalUrl totalReviews rating businessStatus : PyVal) : EnrichmentResult
  | failure (originalUrl : PyVal) (errorMsg : String) : EnrichmentResult
deriving DecidableEq

def EnrichmentResult.originalUrl : EnrichmentResult → PyVal
  | .success u _ _ _ => u
  | .failure u _ => u

/-- The Error field; None on the success dict. -/
def EnrichmentResult.error : EnrichmentResult → Option String
  | .success _ _ _ _ => none
  | .failure _ e => some e

/-- The Total Reviews column value contributed by this result after the
dicts are assembled into a DataFrame: an absent key reads as NaN. -/
def EnrichmentResult.totalReviews : EnrichmentResult → PyVal
  | .success _ t _ _ => t
  | .failure _ _ => .vNone

/-- The Rating column value; absent key reads as NaN. -/
def EnrichmentResult.rating : EnrichmentResult → PyVal
  | .success _ _ r _ => r
  | .failure _ _ => .vNone

/-- The Api Business Status column value; absent key reads as NaN. -/
def EnrichmentResult.businessStatus : EnrichmentResult → PyVal
  | .success _ _ _ b => b
  | .failure _ _ => .vNone

/-- Whether the result is the success dict shape (all five keys present). -/
def EnrichmentResult.isSuccess : EnrichmentResult → Bool
  | .success _ _ _ _ => true
  | .failure _ _ => false

def optToPy : Option String → PyVal
  | none => .vNone
  | some s => .vStr s

/-- The f-string API Error: {status} with None rendered Python-style. -/
def apiErrorMsg : Option String → String
  | none => "API Error: None"
  | some s => "API Error: " ++ s

/-- Embedding of get_store_details (src/main.py lines 29-50).  The oracle
is an explicit argument; the second component of the output records the
place identifier the oracle was invoked with, or none when the branch
returned before any oracle call.  The KeyError raised by
place_details[chr39 result chr39] when status is OK but the key is absent
is caught by the blanket except and stringified. -/
def get_store_details (v : PyVal) (oracle : PyVal → OracleResponse) :
    EnrichmentResult × Option PyVal :=
  let pid : PyVal :=
    if containsSub httpsMarker (pyStr v).data then optToPy (extract_place_id_from_url v)
    else v
  if pyFalsy pid then (.failure v "Could not extract Place ID", none)
  else
    match oracle pid with
    | .exn msg => (.failure v msg, some pid)
    | .resp status result =>
      if status == some "OK" then
        match result with
        | some r => (.success v r.userRatingsTotal r.rating r.businessStatus, some pid)
        | none => (.failure v "KeyError: result", some pid)
      else (.failure v (apiErrorMsg status), some pid)

/-- pandas Series.dropna over a column of scalars: NaN / None rows are
removed. -/
def dropna (l : List PyVal) : List PyVal :=
  l.filter (fun v => !(v == PyVal.vNone))

/-- Embedding of the fetch loop (src/main.py lines 85-91): the store
locator column is dropna-filtered and get_store_details is applied to each
surviving value in order. -/
def fetchStage (locators : List PyVal) (oracle : PyVal → OracleResponse) :
    List EnrichmentResult :=
  (dropna locators).map (fun u => (get_store_details u oracle).1)

/-- A concrete oracle that always answers OK with fully populated fields. -/
def oracleAllOk : PyVal → OracleResponse :=
  fun _ => .resp (some "OK") (some ⟨.vInt 12, .vRat (mkRat 9 2), .vStr "OPERATIONAL"⟩)

/-- One row of the input worksheet after get_all_records: the store
locator column plus the two segment-flag columns the pipeline reads.
Other pass-through columns do not influence any computation. -/
structure StoreInput where
  storeLocator : PyVal
  experienceCenter : PyVal
  region : PyVal
deriving DecidableEq

/-- One row of merged_df right after pd.merge, before the numeric
coercion: input fields plus the three selected enrichment columns, NaN
when the left join found no match. -/
structure PreRow where
  input : StoreInput
  totalReviews : PyVal
  rating : PyVal
  businessStatus : PyVal
deriving DecidableEq

/-- The rows a single left-hand row produces in pd.merge with how=left on
Original URL: one row per matching right-hand row, or a single row with
NaN fill when nothing matches. -/
def leftJoinRow (fetched : List EnrichmentResult) (i : StoreInput) : List PreRow :=
  let ms := fetched.filter (fun f => f.originalUrl == i.storeLocator)
  if ms.isEmpty then [⟨i, .vNone, .vNone, .vNone⟩]
  else ms.map (fun f => ⟨i, f.totalReviews, f.rating, f.businessStatus⟩)

/-- pd.merge(df_input_renamed, df_fetched[cols], on Original URL,
how=left): left rows in order, each expanded by its matches. -/
def leftJoin (inputs : List StoreInput) (fetched : List EnrichmentResult) : List PreRow :=
  inputs.flatMap (leftJoinRow fetched)

def digitsValAux (acc : Nat) : List Char → Nat
  | [] => acc
  | c :: cs => digitsValAux (acc * 10 + (c.toNat - 48)) cs

/-- Decimal number parsing as pd.to_numeric applies it to a string cell:
optional sign, digits, optional fractional part.  A string that does not
parse makes pd.to_numeric raise ValueError. -/
def parseNumChars (cs : List Char) : Option Rat :=
  let sgn : Int := match cs with
    | '-' :: _ => -1
    | _ => 1
  let rest : List Char := match cs with
    | '-' :: t => t
    | '+' :: t => t
    | t => t
  let ip := rest.takeWhile Char.isDigit
  let rest2 := rest.drop ip.length
  match rest2 with
  | [] =>
    if ip.isEmpty then none
    else some (mkRat (sgn * (digitsValAux 0 ip : Int)) 1)
  | '.' :: fr =>
    if fr.all Char.isDigit && !(ip.isEmpty && fr.isEmpty) then
      some ((mkRat (sgn * (digitsValAux 0 ip : Int)) 1) +
        (mkRat (sgn * (digitsValAux 0 fr : Int)) 1) / ((10 : Rat) ^ fr.length))
    else none
  | _ => none

/-- pd.to_numeric on one cell: none models a raised ValueError, some none
models NaN, some (some q) a numeric value. -/
def toNumericVal : PyVal → Option (Option Rat)
  | .vNone => some none
  | .vInt n => some (some (n : Rat))
  | .vRat q => some (some q)
  | .vStr s => (parseNumChars s.data).map (fun q => some q)

/-- Series.fillna(0) on one cell. -/
def fillnaZero : Option Rat → Rat
  | none => 0
  | some q => q

/-- One row of merged_df after both numeric coercions: Total Reviews and
Rating are genuine numbers, never missing. -/
structure MergedRow where
  input : StoreInput
  totalReviews : Rat
  rating : Rat
  apiBusinessStatus : PyVal
deriving DecidableEq

def coerceRow (r : PreRow) : MergedRow :=
  ⟨r.input, fillnaZero ((toNumericVal r.totalReviews).getD none),
    fillnaZero ((toNumericVal r.rating).getD none), r.businessStatus⟩

/-- The faults the merge block can raise: selecting the enrichment columns
from a DataFrame that lacks them (KeyError: no dict in the fetched list
had the success shape), or pd.to_numeric meeting a non-numeric string
(ValueError). -/
inductive MergeFault where
  | keyErrorMissingColumns : MergeFault
  | valueErrorNonNumeric : MergeFault
deriving DecidableEq

/-- Embedding of the merge block (src/main.py lines 95-107).  The column
selection df_fetched[cols_to_merge] succeeds only when at least one
fetched dict has the success shape, since pd.DataFrame takes the union of
the dict keys and the failure dicts carry only Original URL and Error.
Then pd.to_numeric runs on the Total Reviews column, then on Rating;
each raises on any unparsable string cell, else NaN cells become 0. -/
def runMerger (inputs : List StoreInput) (fetched : List EnrichmentResult) :
    Except MergeFault (List MergedRow) :=
  if !(fetched.any EnrichmentResult.isSuccess) then .error .keyErrorMissingColumns
  else
    let pre := leftJoin inputs fetched
    if pre.all (fun r => (toNumericVal r.totalReviews).isSome) then
      if pre.all (fun r => (toNumericVal r.rating).isSome) then
        .ok (pre.map coerceRow)
      else .error .valueErrorNonNumeric
    else .error .valueErrorNonNumeric

/-- The filter merged_df[Api Business Status != PERMANENTLY_CLOSED]
(line 112); NaN statuses compare unequal and are kept. -/
def isClosed (r : MergedRow) : Bool :=
  r.apiBusinessStatus == .vStr "PERMANENTLY_CLOSED"

/-- The KPI input table df: merged rows with closed stores removed. -/
def kpiInput (merged : List MergedRow) : List MergedRow :=
  merged.filter (fun r => !isClosed r)

/-- Boundary of the top rating bucket, the literal 4.9. -/
def topBucketBound : Rat := mkRat 49 10

/-- Visible Rating >= 4.9 (line 136). -/
def ratingGe49 (r : MergedRow) : Bool := decide (r.rating ≥ topBucketBound)

/-- 4 <= Visible Rating < 4.9 (line 137). -/
def ratingMid (r : MergedRow) : Bool :=
  decide (r.rating ≥ 4) && decide (r.rating < topBucketBound)

/-- Visible Rating < 4 (line 138). -/
def ratingLt4 (r : MergedRow) : Bool := decide (r.rating < 4)

/-- One row of the KPI table (lines 131-140). -/
structure KPIRow where
  segment : String
  totalReviews : Rat
  visibleRating : Rat
  storeCount : Nat
  countGe49 : Nat
  countMid : Nat
  countLt4 : Nat
  snapshotDate : String
deriving DecidableEq

/-- np.average(values, weights): raises ZeroDivisionError (modelled as
none) when the weights sum to zero, else the weighted mean. -/
def npAverage (vals weights : List Rat) : Option Rat :=
  let ws := weights.sum
  if ws = 0 then none
  else some ((((vals.zip weights).map (fun p => p.1 * p.2)).sum) / ws)

/-- Embedding of one iteration of the KPI loop (lines 128-140) on the
rows of one segment. -/
def segmentKpi (name snapshotDate : String) (rows : List MergedRow) : Option KPIRow :=
  let tr := (rows.map MergedRow.totalReviews).sum
  let avg? :=
    if tr > 0 then npAverage (rows.map MergedRow.rating) (rows.map MergedRow.totalReviews)
    else some 0
  match avg? with
  | none => none
  | some avg =>
    some ⟨name, tr, avg, rows.length, (rows.filter ratingGe49).length,
      (rows.filter ratingMid).length, (rows.filter ratingLt4).length, snapshotDate⟩

/-- The seven named segments of segments_config (lines 118-126), each a
filter over the closed-store-free table. -/
def segmentsConfig (df : List MergedRow) : List (String × List MergedRow) :=
  [("All Wakefit Stores", df),
   ("COCO Stores", df.filter (fun r => r.input.experienceCenter == .vInt 1)),
   ("Non COCO Stores", df.filter (fun r => r.input.experienceCenter == .vInt 0)),
   ("North", df.filter (fun r => r.input.region == .vStr "North")),
   ("South", df.filter (fun r => r.input.region == .vStr "South")),
   ("East", df.filter (fun r => r.input.region == .vStr "East")),
   ("West", df.filter (fun r => r.input.region == .vStr "West"))]

/-- A store-level output record: merged_df.drop(columns=[Api Business
Status]) (line 147). -/
structure StoreLevelRecord where
  input : StoreInput
  totalReviews : Rat
  rating : Rat
deriving DecidableEq

def dropStatusCol (r : MergedRow) : StoreLevelRecord :=
  ⟨r.input, r.totalReviews, r.rating⟩

/-- The store_level_data part of the JSON snapshot: every merged row,
closed stores included, without the status column. -/
def storeLevelData (merged : List MergedRow) : List StoreLevelRecord :=
  merged.map dropStatusCol

/-- A worksheet of the output workbook: the preallocated capacity given at
creation and the cell contents.  clear() empties the contents and keeps
the capacity; set_with_dataframe writes the frame from the top-left cell,
so on a cleared or fresh sheet the contents equal the written frame. -/
structure Worksheet where
  capRows : Nat
  capCols : Nat
  content : List (List PyVal)
deriving DecidableEq

/-- The output workbook: its worksheets as an ordered association list of
title and sheet, as gspread exposes them. -/
abbrev Workbook := List (String × Worksheet)

/-- workbook.worksheet(title): the first sheet with the given title, or
none, which gspread reports by raising WorksheetNotFound. -/
def lookupWs : Workbook → String → Option Worksheet
  | [], _ => none
  | p :: t, title => if p.1 == title then some p.2 else lookupWs t title

/-- Replacing the contents of every sheet with the given title. -/
def updateWs (wb : Workbook) (title : String) (w : Worksheet) : Workbook :=
  wb.map (fun p => if p.1 == title then (title, w) else p)

/-- Embedding of one try/except write block of section 7 of the source
(lines 163-178): look the dated worksheet up; if found, clear it and set
the frame; on WorksheetNotFound, add a fresh sheet with the preallocated
capacity and set the frame. -/
def writeWorksheet (wb : Workbook) (title : String) (capR capC : Nat)
    (data : List (List PyVal)) : Workbook :=
  match lookupWs wb title with
  | some w => updateWs wb title ⟨w.capRows, w.capCols, data⟩
  | none => wb ++ [(title, ⟨capR, capC, data⟩)]

/-- Embedding of the whole output-writer step: the store-level frame goes
to Store_Data_<date> (capacity 1000 x 30), then the KPI frame goes to
KPI_Data_<date> (capacity 100 x 20). -/
def outputStage (wb : Workbook) (snapshotDate : String)
    (storeData kpiData : List (List PyVal)) : Workbook :=
  let wb1 := writeWorksheet wb ("Store_Data_" ++ snapshotDate) 1000 30 storeData
  writeWorksheet wb1 ("KPI_Data_" ++ snapshotDate) 100 20 kpiData

/-!
Spec-side definitions.  The next definitions transcribe the words of the
specification (sections 4.1 and 8) rather than the source, for the
refinement claims about the Place ID Extractor.  They are deliberately
kept separate from the embedding above.
-/

/-- The substring of the haystack after the first occurrence of the
needle (empty when the needle never occurs). -/
def afterFirst (n : List Char) : List Char → List Char
  | [] => []
  | c :: cs => if startsWith n (c :: cs) then (c :: cs).drop n.length else afterFirst n cs

/-- Claim C4 as worded: a string containing the place_id: marker yields
the substring after the marker up to the next ampersand, dot or question
mark; else a string containing /place/ is split on the slashes and the
segments are scanned from the end for the first plausible identifier;
anything else yields null. -/
def specExtractClaimedC4 : PyVal → Option String
  | .vStr s =>
    let cs := s.data
    if containsSub placeIdMarker cs then
      some ⟨(afterFirst placeIdMarker cs).takeWhile (fun d => !isDelim d)⟩
    else if containsSub placeSegmentMarker cs then
      ((splitOnChar '/' cs).reverse.findSome? (fun p =>
        let pid := stripSegmentSuffix p
        if isPlausibleId pid then some pid else none)).map (fun l => (⟨l⟩ : String))
    else none
  | _ => none

/-- The capture of the marker pattern at one position of the string, when
the marker sits there and is followed by at least one character outside
the delimiter class. -/
def specCapAt (cs : List Char) (i : Nat) : Option (List Char) :=
  let r := cs.drop i
  if startsWith placeIdMarker r then
    let cap := (r.drop placeIdMarker.length).takeWhile (fun d => !isDelim d)
    if cap.isEmpty then none else some cap
  else none

/-- Claim C4 as amended: the marker branch succeeds only at the leftmost
occurrence of place_id: followed by at least one non-delimiter character,
and a string containing place_id: with no such occurrence yields null
without falling through to the /place/ scan. -/
def specExtractAmendedC4 : PyVal → Option String
  | .vStr s =>
    let cs := s.data
    if containsSub placeIdMarker cs then
      ((List.range cs.length).findSome? (specCapAt cs)).map (fun l => (⟨l⟩ : String))
    else if containsSub placeSegmentMarker cs then
      ((splitOnChar '/' cs).reverse.findSome? (fun p =>
        let pid := stripSegmentSuffix p
        if isPlausibleId pid then some pid else none)).map (fun l => (⟨l⟩ : String))
    else none
  | _ => none

/-!
Helper lemmas.
-/

lemma topBucketBound_eq : topBucketBound = 49 / 10 := by
  rw [topBucketBound, Rat.mkRat_eq_divInt, Rat.divInt_eq_div]; norm_num

lemma four_lt_topBucketBound : (4 : Rat) < topBucketBound := by
  rw [topBucketBound_eq]; norm_num

lemma bucket_trichotomy (r : MergedRow) :
    (ratingGe49 r).toNat + (ratingMid r).toNat + (ratingLt4 r).toNat = 1 := by
  unfold ratingGe49 ratingMid ratingLt4
  rcases le_or_lt topBucketBound r.rating with h | h
  · have hm : ¬ r.rating < topBucketBound := not_lt.mpr h
    have h4 : ¬ r.rating < 4 := by
      intro hc
      exact absurd (lt_trans hc four_lt_topBucketBound) hm
    rw [decide_eq_true h, decide_eq_false hm, decide_eq_false h4]
    simp
  · rcases le_or_lt 4 r.rating with h2 | h2
    · rw [decide_eq_false (not_le.mpr h), decide_eq_true h2, decide_eq_true h,
        decide_eq_false (not_lt.mpr h2)]
      simp
    · have hge : ¬ topBucketBound ≤ r.rating :=
        not_le.mpr (lt_trans h2 four_lt_topBucketBound)
      rw [decide_eq_false hge, decide_eq_false (not_le.mpr h2), decide_eq_true h2]
      simp

lemma filter_three_buckets (rows : List MergedRow) :
    (rows.filter ratingGe49).length + (rows.filter ratingMid).length +
      (rows.filter ratingLt4).length = rows.length := by
  induction rows with
  | nil => rfl
  | cons r t ih =>
    have h := bucket_trichotomy r
    cases hA : ratingGe49 r <;> cases hB : ratingMid r <;> cases hC : ratingLt4 r <;>
      rw [hA, hB, hC] at h <;>
      simp only [List.filter_cons, hA, hB, hC, if_true, if_false, Bool.toNat] at h ⊢ <;>
      simp_all <;> omega

/-!
Claim theorems.
-/

/-- Claim C6 (confirmed): the three bucket predicates of the KPI loop put
every row in exactly one bucket, with no gap or overlap at the 4 and 4.9
boundaries: a rating of exactly 4.9 counts only in the top bucket and a
rating of exactly 4 counts only in the middle bucket. -/
theorem rating_buckets_partition_exactly_one (r : MergedRow) :
    ((ratingGe49 r).toNat + (ratingMid r).toNat + (ratingLt4 r).toNat = 1) ∧
    (r.rating = topBucketBound →
      ratingGe49 r = true ∧ ratingMid r = false ∧ ratingLt4 r = false) ∧
    (r.rating = 4 →
      ratingMid r = true ∧ ratingGe49 r = false ∧ ratingLt4 r = false) := by
  refine ⟨bucket_trichotomy r, ?_, ?_⟩
  · intro h
    unfold ratingGe49 ratingMid ratingLt4
    rw [h]
    refine ⟨by decide, by decide, by decide⟩
  · intro h
    unfold ratingGe49 ratingMid ratingLt4
    rw [h]
    refine ⟨by decide, ?_, by decide⟩
    rw [decide_eq_false (not_le.mpr four_lt_topBucketBound)]

/-- Claim C10 (confirmed): in every KPI row the pipeline produces, the
three bucket counts sum exactly to the store count of the segment. -/
theorem bucket_counts_sum_to_store_count (name date : String) (rows : List MergedRow)
    (k : KPIRow) (h : segmentKpi name date rows = some k) :
    k.countGe49 + k.countMid + k.countLt4 = k.storeCount := by
  simp only [segmentKpi] at h
  cases havg : (if (rows.map MergedRow.totalReviews).sum > 0 then
      npAverage (rows.map MergedRow.rating) (rows.map MergedRow.totalReviews)
    else some 0) with
  | none => rw [havg] at h; exact absurd h (by simp)
  | some avg =>
    rw [havg] at h
    simp only [Option.some.injEq] at h
    rw [← h]
    exact filter_three_buckets rows

/-- Witness for C10 at a concrete segment. -/
theorem bucket_counts_sum_witness :
    (⟨"All Wakefit Stores", 0, 0, 0, 0, 0, 0, "2026-10-12"⟩ : KPIRow).countGe49 +
      (⟨"All Wakefit Stores", 0, 0, 0, 0, 0, 0, "2026-10-12"⟩ : KPIRow).countMid +
      (⟨"All Wakefit Stores", 0, 0, 0, 0, 0, 0, "2026-10-12"⟩ : KPIRow).countLt4 =
      (⟨"All Wakefit Stores", 0, 0, 0, 0, 0, 0, "2026-10-12"⟩ : KPIRow).storeCount :=
  bucket_counts_sum_to_store_count "All Wakefit Stores" "2026-10-12" []
    ⟨"All Wakefit Stores", 0, 0, 0, 0, 0, 0, "2026-10-12"⟩ (by decide)

/-- Claim C5 (confirmed): the KPI computation never fails and never hits
the ZeroDivisionError of np.average: the visible rating is the
review-weighted average of the ratings exactly when the weight sum is
positive, is exactly 0 when the weight sum is 0, and an empty segment
yields an all-zero KPI row. -/
theorem segment_kpi_weighted_average_guarded (name date : String) (rows : List MergedRow) :
    ∃ k, segmentKpi name date rows = some k ∧
      ((rows.map MergedRow.totalReviews).sum > 0 →
        k.visibleRating = (rows.map (fun r => r.rating * r.totalReviews)).sum /
          (rows.map MergedRow.totalReviews).sum) ∧
      ((rows.map MergedRow.totalReviews).sum = 0 → k.visibleRating = 0) ∧
      (rows = [] → k.totalReviews = 0 ∧ k.visibleRating = 0 ∧ k.storeCount = 0 ∧
        k.countGe49 = 0 ∧ k.countMid = 0 ∧ k.countLt4 = 0) := by
  by_cases htr : (rows.map MergedRow.totalReviews).sum > 0
  · have hne : (rows.map MergedRow.totalReviews).sum ≠ 0 := ne_of_gt htr
    have hzip : (((rows.map MergedRow.rating).zip (rows.map MergedRow.totalReviews)).map
        (fun p => p.1 * p.2)).sum = (rows.map (fun r => r.rating * r.totalReviews)).sum := by
      rw [List.zip_map', List.map_map]
      rfl
    refine ⟨⟨name, (rows.map MergedRow.totalReviews).sum,
      (rows.map (fun r => r.rating * r.totalReviews)).sum /
        (rows.map MergedRow.totalReviews).sum,
      rows.length, (rows.filter ratingGe49).length, (rows.filter ratingMid).length,
      (rows.filter ratingLt4).length, date⟩, ?_, ?_, ?_, ?_⟩
    · simp only [segmentKpi, npAverage, if_pos htr, if_neg hne, hzip]
    · intro _; rfl
    · intro h0; exact absurd h0 hne
    · intro hnil
      subst hnil
      exact absurd htr (by simp)
  · refine ⟨⟨name, (rows.map MergedRow.totalReviews).sum, 0, rows.length,
      (rows.filter ratingGe49).length, (rows.filter ratingMid).length,
      (rows.filter ratingLt4).length, date⟩, ?_, ?_, ?_, ?_⟩
    · simp only [segmentKpi, npAverage, if_neg htr]
    · intro hc; exact absurd hc htr
    · intro _; rfl
    · intro hnil
      subst hnil
      refine ⟨by simp, rfl, rfl, rfl, rfl, rfl⟩

/-- Witness for C5 at the empty segment. -/
theorem segment_kpi_empty_segment_witness :
    ∃ k, segmentKpi "East" "2026-10-12" ([] : List MergedRow) = some k ∧
      (((List.map MergedRow.totalReviews []).sum > 0) →
        k.visibleRating =
          (List.map (fun r : MergedRow => r.rating * r.totalReviews) []).sum /
          (List.map MergedRow.totalReviews []).sum) ∧
      (((List.map MergedRow.totalReviews []).sum = 0) → k.visibleRating = 0) ∧
      (([] : List MergedRow) = [] → k.totalReviews = 0 ∧ k.visibleRating = 0 ∧
        k.storeCount = 0 ∧ k.countGe49 = 0 ∧ k.countMid = 0 ∧ k.countLt4 = 0) :=
  segment_kpi_weighted_average_guarded "East" "2026-10-12" []

/-- Claim C7 (confirmed): a merged row whose Api Business Status equals
PERMANENTLY_CLOSED appears in none of the seven KPI segment tables, so it
contributes to no store count, review sum or bucket count, yet its
status-free projection is present in the store-level output data. -/
theorem closed_stores_excluded_yet_retained (merged : List MergedRow) (r : MergedRow)
    (hmem : r ∈ merged) (hclosed : r.apiBusinessStatus = .vStr "PERMANENTLY_CLOSED") :
    (∀ p ∈ segmentsConfig (kpiInput merged), r ∉ p.2) ∧
      dropStatusCol r ∈ storeLevelData merged := by
  have hnot : r ∉ kpiInput merged := by
    intro hc
    have hkeep := (List.mem_filter.mp hc).2
    rw [isClosed, hclosed] at hkeep
    simp at hkeep
  refine ⟨?_, List.mem_map_of_mem dropStatusCol hmem⟩
  intro p hp
  simp only [segmentsConfig, List.mem_cons, List.not_mem_nil, or_false] at hp
  rcases hp with rfl | rfl | rfl | rfl | rfl | rfl | rfl <;>
    first
      | exact hnot
      | (intro hc; exact hnot (List.mem_filter.mp hc).1)

/-- Witness for C7 at a concrete one-row table. -/
theorem closed_store_witness :
    (∀ p ∈ segmentsConfig (kpiInput
        [⟨⟨.vStr "u1", .vInt 1, .vStr "North"⟩, 10, mkRat 9 2,
          .vStr "PERMANENTLY_CLOSED"⟩]),
      (⟨⟨.vStr "u1", .vInt 1, .vStr "North"⟩, 10, mkRat 9 2,
        .vStr "PERMANENTLY_CLOSED"⟩ : MergedRow) ∉ p.2) ∧
    dropStatusCol ⟨⟨.vStr "u1", .vInt 1, .vStr "North"⟩, 10, mkRat 9 2,
        .vStr "PERMANENTLY_CLOSED"⟩ ∈
      storeLevelData [⟨⟨.vStr "u1", .vInt 1, .vStr "North"⟩, 10, mkRat 9 2,
        .vStr "PERMANENTLY_CLOSED"⟩] :=
  closed_stores_excluded_yet_retained _ _ (by decide) (by decide)

lemma get_store_details_originalUrl (v : PyVal) (oracle : PyVal → OracleResponse) :
    ((get_store_details v oracle).1).originalUrl = v := by
  unfold get_store_details
  dsimp only
  repeat
    first
      | rfl
      | split

/-- Claim C1 (amended, proved): when the string form of the input contains
https:// the fetcher resolves it through the Place ID Extractor, and
whenever that extraction yields null it returns the failure record with
error Could not extract Place ID and performs no oracle call. -/
theorem fetcher_error_without_oracle_on_url_extraction_failure (v : PyVal)
    (oracle : PyVal → OracleResponse)
    (hurl : containsSub httpsMarker (pyStr v).data = true)
    (hext : extract_place_id_from_url v = none) :
    get_store_details v oracle = (.failure v "Could not extract Place ID", none) := by
  simp [get_store_details, hurl, hext, optToPy, pyFalsy]

/-- Witness for C1: a https URL with no extractable identifier. -/
theorem fetcher_error_on_unextractable_https_url :
    get_store_details (.vStr "https://wakefit") oracleAllOk =
      (.failure (.vStr "https://wakefit") "Could not extract Place ID", none) :=
  fetcher_error_without_oracle_on_url_extraction_failure _ _ (by decide) (by decide)

/-- Counterexample for C1 as stated: the raw identifier abc is not a URL,
extraction on it yields null, yet the fetcher passes it to the oracle
verbatim and returns a populated success record instead of the mandated
error record. -/
theorem fetcher_bypasses_extractor_for_non_url_input :
    extract_place_id_from_url (.vStr "abc") = none ∧
    ¬ ((get_store_details (.vStr "abc") oracleAllOk).1.error =
          some "Could not extract Place ID" ∧
        (get_store_details (.vStr "abc") oracleAllOk).2 = none) := by decide

/-- Claim C3 (amended, proved): the fetch loop produces exactly one
EnrichmentResult per surviving (non-missing) store-locator value, in
order and keyed by that value, for every input column and oracle,
duplicates included; rows whose locator is missing are dropped by dropna
and yield no result. -/
theorem fetch_results_key_correspondence (locators : List PyVal)
    (oracle : PyVal → OracleResponse) :
    (fetchStage locators oracle).map EnrichmentResult.originalUrl = dropna locators ∧
    (fetchStage locators oracle).length = (dropna locators).length := by
  constructor
  · unfold fetchStage
    rw [List.map_map]
    have hcomp : (EnrichmentResult.originalUrl ∘ fun u => (get_store_details u oracle).1) =
        id := by
      funext u
      exact get_store_details_originalUrl u oracle
    rw [hcomp, List.map_id]
  · unfold fetchStage
    rw [List.length_map]

/-- Counterexample for C3 as stated: a one-row table whose store-locator
cell is missing produces zero EnrichmentResults, not one. -/
theorem fetch_drops_missing_locator_row :
    (fetchStage [PyVal.vNone] oracleAllOk).length ≠ ([PyVal.vNone] : List PyVal).length ∧
    fetchStage [PyVal.vNone] oracleAllOk = [] := by decide

/-- Claim C8 (amended, proved): an EnrichmentResult with a non-null error
carries null in every data field, and a result with a null error is the
success shape keyed by the input value; a result is never both populated
and erroneous.  (The success shape may still carry null data values when
the oracle response omits them.) -/
theorem enrichment_error_field_exclusivity (v : PyVal) (oracle : PyVal → OracleResponse) :
    ((get_store_details v oracle).1.error ≠ none →
      (get_store_details v oracle).1.totalReviews = .vNone ∧
      (get_store_details v oracle).1.rating = .vNone ∧
      (get_store_details v oracle).1.businessStatus = .vNone) ∧
    ((get_store_details v oracle).1.error = none →
      ∃ tr rt bs, (get_store_details v oracle).1 = .success v tr rt bs) := by
  have hurl := get_store_details_originalUrl v oracle
  cases hres : (get_store_details v oracle).1 with
  | success u tr rt bs =>
    rw [hres] at hurl
    constructor
    · intro hne
      simp [EnrichmentResult.error] at hne
    · intro _
      have hu : u = v := hurl
      exact ⟨tr, rt, bs, by rw [hu]⟩
  | failure u e =>
    constructor
    · intro _
      exact ⟨rfl, rfl, rfl⟩
    · intro hc
      simp [EnrichmentResult.error] at hc

/-- An oracle that answers OK but omits every data field from the result
dict, as the live service does for a place with no ratings. -/
def oracleOkEmptyResult : PyVal → OracleResponse :=
  fun _ => .resp (some "OK") (some ⟨.vNone, .vNone, .vNone⟩)

/-- Counterexample for C8 as stated: on an OK response with an empty
result dict the fetcher returns a record with a null error AND null
rating and total reviews, so neither side of the claimed exact
alternative holds. -/
theorem enrichment_ok_response_without_fields_cex :
    ¬ (((get_store_details (.vStr "ChIJsomeplace") oracleOkEmptyResult).1.error = none ∧
        (get_store_details (.vStr "ChIJsomeplace") oracleOkEmptyResult).1.rating ≠
          PyVal.vNone ∧
        (get_store_details (.vStr "ChIJsomeplace") oracleOkEmptyResult).1.totalReviews ≠
          PyVal.vNone) ∨
      ((get_store_details (.vStr "ChIJsomeplace") oracleOkEmptyResult).1.error ≠ none ∧
        (get_store_details (.vStr "ChIJsomeplace") oracleOkEmptyResult).1.rating =
          PyVal.vNone ∧
        (get_store_details (.vStr "ChIJsomeplace") oracleOkEmptyResult).1.totalReviews =
          PyVal.vNone)) := by decide

lemma leftJoin_mem_shape (inputs : List StoreInput) (fetched : List EnrichmentResult)
    (r : PreRow) (hr : r ∈ leftJoin inputs fetched) :
    (r.totalReviews = .vNone ∧ r.rating = .vNone) ∨
      ∃ f ∈ fetched, r.totalReviews = f.totalReviews ∧ r.rating = f.rating := by
  obtain ⟨i, _, hrow⟩ := List.mem_flatMap.mp hr
  simp only [leftJoinRow] at hrow
  split at hrow
  · rw [List.mem_singleton] at hrow
    subst hrow
    exact Or.inl ⟨rfl, rfl⟩
  · obtain ⟨f, hf, hfr⟩ := List.mem_map.mp hrow
    subst hfr
    exact Or.inr ⟨f, (List.mem_filter.mp hf).1, rfl, rfl⟩

/-- Claim C2 (amended, proved): provided at least one fetched record has
the success shape (so the enrichment frame has the three data columns)
and every fetched Total Reviews and Rating value is numeric or missing,
the merge block succeeds, and every StoreInput row with no matching
enrichment record ends up in the merged table with Total Reviews 0 and
Rating 0, never null. -/
theorem merger_defaults_unmatched_to_zero (inputs : List StoreInput)
    (fetched : List EnrichmentResult)
    (hcols : fetched.any EnrichmentResult.isSuccess = true)
    (hnum : ∀ f ∈ fetched,
      (toNumericVal f.totalReviews).isSome ∧ (toNumericVal f.rating).isSome) :
    runMerger inputs fetched = .ok ((leftJoin inputs fetched).map coerceRow) ∧
    ∀ i ∈ inputs, (∀ f ∈ fetched, f.originalUrl ≠ i.storeLocator) →
      (⟨i, 0, 0, .vNone⟩ : MergedRow) ∈ (leftJoin inputs fetched).map coerceRow := by
  constructor
  · have hTR : (leftJoin inputs fetched).all
        (fun r => (toNumericVal r.totalReviews).isSome) = true := by
      rw [List.all_eq_true]
      intro r hr
      rcases leftJoin_mem_shape inputs fetched r hr with ⟨h1, _⟩ | ⟨f, hf, h1, _⟩
      · rw [h1]; rfl
      · rw [h1]; exact (hnum f hf).1
    have hRT : (leftJoin inputs fetched).all
        (fun r => (toNumericVal r.rating).isSome) = true := by
      rw [List.all_eq_true]
      intro r hr
      rcases leftJoin_mem_shape inputs fetched r hr with ⟨_, h2⟩ | ⟨f, hf, _, h2⟩
      · rw [h2]; rfl
      · rw [h2]; exact (hnum f hf).2
    simp only [runMerger, hcols, Bool.not_true, Bool.false_eq_true, if_false, hTR, hRT,
      if_true]
  · intro i hi hnomatch
    have hjoin : leftJoinRow fetched i = [⟨i, .vNone, .vNone, .vNone⟩] := by
      unfold leftJoinRow
      have hfil : fetched.filter (fun f => f.originalUrl == i.storeLocator) = [] := by
        rw [List.filter_eq_nil_iff]
        intro f hf
        simpa using hnomatch f hf
      rw [hfil]
      rfl
    have hpre : (⟨i, .vNone, .vNone, .vNone⟩ : PreRow) ∈ leftJoin inputs fetched :=
      List.mem_flatMap.mpr ⟨i, hi, by rw [hjoin]; exact List.mem_singleton_self _⟩
    have hco : coerceRow ⟨i, .vNone, .vNone, .vNone⟩ = (⟨i, 0, 0, .vNone⟩ : MergedRow) := rfl
    rw [← hco]
    exact List.mem_map_of_mem coerceRow hpre

/-- Witness for C2: one matched and one unmatched input row against a
single successful enrichment record. -/
theorem merger_defaults_witness :
    runMerger [⟨.vStr "u1", .vInt 1, .vStr "North"⟩, ⟨.vStr "u2", .vInt 0, .vStr "South"⟩]
        [.success (.vStr "u1") (.vInt 12) (.vRat (mkRat 9 2)) (.vStr "OPERATIONAL")] =
      .ok ((leftJoin
        [⟨.vStr "u1", .vInt 1, .vStr "North"⟩, ⟨.vStr "u2", .vInt 0, .vStr "South"⟩]
        [.success (.vStr "u1") (.vInt 12) (.vRat (mkRat 9 2)) (.vStr "OPERATIONAL")]).map
          coerceRow) ∧
    ∀ i ∈ [(⟨.vStr "u1", .vInt 1, .vStr "North"⟩ : StoreInput),
        ⟨.vStr "u2", .vInt 0, .vStr "South"⟩],
      (∀ f ∈ [EnrichmentResult.success (.vStr "u1") (.vInt 12) (.vRat (mkRat 9 2))
          (.vStr "OPERATIONAL")], f.originalUrl ≠ i.storeLocator) →
      (⟨i, 0, 0, .vNone⟩ : MergedRow) ∈ (leftJoin
        [⟨.vStr "u1", .vInt 1, .vStr "North"⟩, ⟨.vStr "u2", .vInt 0, .vStr "South"⟩]
        [.success (.vStr "u1") (.vInt 12) (.vRat (mkRat 9 2)) (.vStr "OPERATIONAL")]).map
          coerceRow :=
  merger_defaults_unmatched_to_zero _ _ (by decide) (by decide)

/-- Counterexample for C2 as stated: when every locator is missing the
fetch loop yields an empty frame, the enrichment-column selection raises
KeyError, and the merge aborts instead of defaulting the row to zeros. -/
theorem merger_raises_when_no_fetch_succeeded :
    runMerger [⟨.vNone, .vInt 1, .vStr "North"⟩]
        (fetchStage
          ((([⟨.vNone, .vInt 1, .vStr "North"⟩] : List StoreInput)).map
            StoreInput.storeLocator)
          oracleAllOk) =
      .error .keyErrorMissingColumns := by rfl

/-- A workbook is settled for a title and frame when lookup finds a sheet
holding exactly that frame and every entry under the title is that sheet. -/
def wbSettled (wb : Workbook) (title : String) (d : List (List PyVal)) : Prop :=
  ∃ w, lookupWs wb title = some w ∧ w.content = d ∧ ∀ p ∈ wb, p.1 = title → p.2 = w

lemma lookupWs_cons (p : String × Worksheet) (t : Workbook) (title : String) :
    lookupWs (p :: t) title = if p.1 == title then some p.2 else lookupWs t title := rfl

lemma updateWs_cons (p : String × Worksheet) (t : Workbook) (title : String)
    (w : Worksheet) :
    updateWs (p :: t) title w =
      (if p.1 == title then (title, w) else p) :: updateWs t title w := rfl

lemma lookupWs_update_self (wb : Workbook) (title : String) (w : Worksheet)
    (h : (lookupWs wb title).isSome) : lookupWs (updateWs wb title w) title = some w := by
  induction wb with
  | nil => simp [lookupWs] at h
  | cons p t ih =>
    rw [updateWs_cons]
    by_cases hp : (p.1 == title) = true
    · rw [if_pos hp, lookupWs_cons]
      simp
    · rw [if_neg hp, lookupWs_cons, if_neg hp]
      rw [lookupWs_cons, if_neg hp] at h
      exact ih h

lemma updateWs_mem (wb : Workbook) (title : String) (w : Worksheet)
    (p : String × Worksheet) (hp : p ∈ updateWs wb title w) :
    p = (title, w) ∨ (p ∈ wb ∧ p.1 ≠ title) := by
  obtain ⟨q, hq, hqp⟩ := List.mem_map.mp hp
  by_cases h : q.1 = title
  · rw [if_pos (beq_iff_eq.mpr h)] at hqp
    exact Or.inl hqp.symm
  · rw [if_neg (by simpa using h)] at hqp
    subst hqp
    exact Or.inr ⟨hq, h⟩

lemma lookupWs_none_mem (wb : Workbook) (title : String)
    (h : lookupWs wb title = none) : ∀ p ∈ wb, p.1 ≠ title := by
  induction wb with
  | nil => intro p hp; simp at hp
  | cons q t ih =>
    intro p hp
    rw [lookupWs_cons] at h
    by_cases hq : (q.1 == title) = true
    · rw [if_pos hq] at h
      exact absurd h (by simp)
    · rw [if_neg hq] at h
      rcases List.mem_cons.mp hp with rfl | hin
      · simpa using hq
      · exact ih h p hin

lemma lookupWs_append_self (wb : Workbook) (title : String) (w : Worksheet)
    (h : lookupWs wb title = none) :
    lookupWs (wb ++ [(title, w)]) title = some w := by
  induction wb with
  | nil => simp [lookupWs]
  | cons p t ih =>
    have hp : (p.1 == title) = false := by
      have := lookupWs_none_mem (p :: t) title h p (List.mem_cons_self p t)
      simpa using this
    have ht : lookupWs t title = none := by
      rw [lookupWs_cons, hp] at h
      simpa using h
    rw [List.cons_append, lookupWs_cons, hp]
    simp only [Bool.false_eq_true, if_false]
    exact ih ht

lemma lookupWs_update_other (wb : Workbook) (t1 t2 : String) (w : Worksheet)
    (hne : t1 ≠ t2) : lookupWs (updateWs wb t1 w) t2 = lookupWs wb t2 := by
  induction wb with
  | nil => rfl
  | cons p t ih =>
    rw [updateWs_cons]
    by_cases hp : (p.1 == t1) = true
    · have h1 : (t1 == t2) = false := beq_eq_false_iff_ne.mpr hne
      have h2 : (p.1 == t2) = false := by
        refine beq_eq_false_iff_ne.mpr ?_
        rw [beq_iff_eq.mp hp]
        exact hne
      rw [if_pos hp, lookupWs_cons, lookupWs_cons]
      simp only [h1, h2, Bool.false_eq_true, if_false]
      exact ih
    · rw [if_neg hp, lookupWs_cons, lookupWs_cons]
      by_cases hq : (p.1 == t2) = true
      · rw [if_pos hq, if_pos hq]
      · rw [if_neg hq, if_neg hq]
        exact ih

lemma lookupWs_append_other (wb : Workbook) (t1 t2 : String) (w : Worksheet)
    (hne : t1 ≠ t2) : lookupWs (wb ++ [(t1, w)]) t2 = lookupWs wb t2 := by
  induction wb with
  | nil =>
    rw [List.nil_append, lookupWs_cons, beq_eq_false_iff_ne.mpr hne]
    simp [lookupWs]
  | cons p t ih =>
    rw [List.cons_append, lookupWs_cons, lookupWs_cons]
    by_cases hq : (p.1 == t2) = true
    · rw [if_pos hq, if_pos hq]
    · rw [if_neg hq, if_neg hq]
      exact ih

lemma updateWs_eq_self (wb : Workbook) (title : String) (w : Worksheet)
    (h : ∀ p ∈ wb, p.1 = title → p.2 = w) : updateWs wb title w = wb := by
  induction wb with
  | nil => rfl
  | cons p t ih =>
    obtain ⟨a, b⟩ := p
    rw [updateWs_cons, ih (fun q hq => h q (List.mem_cons_of_mem _ hq))]
    by_cases hp : ((a, b).1 == title) = true
    · rw [if_pos hp]
      have ha : a = title := beq_iff_eq.mp hp
      subst ha
      have hb : b = w := h (a, b) (List.mem_cons_self _ _) rfl
      rw [hb]
    · rw [if_neg hp]

lemma wbSettled_write (wb : Workbook) (title : String) (cr cc : Nat)
    (d : List (List PyVal)) : wbSettled (writeWorksheet wb title cr cc d) title d := by
  unfold writeWorksheet
  cases hlk : lookupWs wb title with
  | none =>
    refine ⟨⟨cr, cc, d⟩, lookupWs_append_self wb title _ hlk, rfl, ?_⟩
    intro p hp hpt
    rcases List.mem_append.mp hp with hin | hin
    · exact absurd hpt (lookupWs_none_mem wb title hlk p hin)
    · rw [List.mem_singleton] at hin
      rw [hin]
  | some w0 =>
    refine ⟨⟨w0.capRows, w0.capCols, d⟩,
      lookupWs_update_self wb title _ (by rw [hlk]; rfl), rfl, ?_⟩
    intro p hp hpt
    rcases updateWs_mem wb title _ p hp with h | ⟨_, hne⟩
    · rw [h]
    · exact absurd hpt hne

lemma write_of_settled (wb : Workbook) (title : String) (cr cc : Nat)
    (d : List (List PyVal)) (h : wbSettled wb title d) :
    writeWorksheet wb title cr cc d = wb := by
  obtain ⟨w, hlk, hcd, hall⟩ := h
  unfold writeWorksheet
  rw [hlk]
  dsimp only
  have hw : (⟨w.capRows, w.capCols, d⟩ : Worksheet) = w := by
    cases w with
    | mk a b c => simp only at hcd ⊢; rw [hcd]
  rw [hw]
  exact updateWs_eq_self wb title w hall

lemma wbSettled_write_other (wb : Workbook) (t1 t2 : String) (cr cc : Nat)
    (d1 d2 : List (List PyVal)) (hne : t1 ≠ t2) (h : wbSettled wb t2 d2) :
    wbSettled (writeWorksheet wb t1 cr cc d1) t2 d2 := by
  obtain ⟨w, hlk, hcd, hall⟩ := h
  unfold writeWorksheet
  cases hlk1 : lookupWs wb t1 with
  | none =>
    refine ⟨w, by rw [lookupWs_append_other wb t1 t2 _ hne]; exact hlk, hcd, ?_⟩
    intro p hp hpt
    rcases List.mem_append.mp hp with hin | hin
    · exact hall p hin hpt
    · rw [List.mem_singleton] at hin
      rw [hin] at hpt
      exact absurd hpt hne
  | some w0 =>
    refine ⟨w, by rw [lookupWs_update_other wb t1 t2 _ hne]; exact hlk, hcd, ?_⟩
    intro p hp hpt
    rcases updateWs_mem wb t1 _ p hp with hcase | ⟨hin, _⟩
    · rw [hcase] at hpt
      exact absurd hpt hne
    · exact hall p hin hpt

/-- Claim C9 (confirmed): the Output Writer is idempotent per calendar
day: a same-day rerun looks both dated worksheets up, clears them and
rewrites the same frames, so running the output step twice with the same
date and the same data leaves the workbook in exactly the state one run
produces - identical final content, no appended duplicates. -/
theorem output_stage_idempotent_per_day (wb : Workbook) (date : String)
    (storeData kpiData : List (List PyVal)) :
    outputStage (outputStage wb date storeData kpiData) date storeData kpiData =
      outputStage wb date storeData kpiData := by
  have hne : ("KPI_Data_" ++ date) ≠ ("Store_Data_" ++ date) := by
    intro h
    have hlen := congrArg String.length h
    rw [String.length_append, String.length_append] at hlen
    have h1 : ("KPI_Data_" : String).length = 9 := by decide
    have h2 : ("Store_Data_" : String).length = 11 := by decide
    rw [h1, h2] at hlen
    omega
  unfold outputStage
  have hSD : wbSettled
      (writeWorksheet (writeWorksheet wb ("Store_Data_" ++ date) 1000 30 storeData)
        ("KPI_Data_" ++ date) 100 20 kpiData)
      ("Store_Data_" ++ date) storeData :=
    wbSettled_write_other _ _ _ _ _ _ _ hne
      (wbSettled_write wb ("Store_Data_" ++ date) 1000 30 storeData)
  have hKD : wbSettled
      (writeWorksheet (writeWorksheet wb ("Store_Data_" ++ date) 1000 30 storeData)
        ("KPI_Data_" ++ date) 100 20 kpiData)
      ("KPI_Data_" ++ date) kpiData :=
    wbSettled_write _ ("KPI_Data_" ++ date) 100 20 kpiData
  rw [write_of_settled _ _ _ _ _ hSD, write_of_settled _ _ _ _ _ hKD]

lemma reSearch_some_contains (cs : List Char) (cap : List Char)
    (h : reSearchPlaceId cs = some cap) : containsSub placeIdMarker cs = true := by
  induction cs with
  | nil => simp [reSearchPlaceId] at h
  | cons c t ih =>
    by_cases hs : startsWith placeIdMarker (c :: t) = true
    · simp [containsSub, hs]
    · have hrec : reSearchPlaceId (c :: t) = reSearchPlaceId t := by
        simp [reSearchPlaceId, hs]
      rw [hrec] at h
      simp [containsSub, ih h]

lemma specCapAt_succ (c : Char) (t : List Char) (i : Nat) :
    specCapAt (c :: t) (i + 1) = specCapAt t i := rfl

lemma specCapAt_zero (cs : List Char) :
    specCapAt cs 0 =
      if startsWith placeIdMarker cs then
        (if ((cs.drop placeIdMarker.length).takeWhile (fun d => !isDelim d)).isEmpty
          then none
          else some ((cs.drop placeIdMarker.length).takeWhile (fun d => !isDelim d)))
      else none := rfl

lemma reSearch_eq_spec (cs : List Char) :
    reSearchPlaceId cs = (List.range cs.length).findSome? (specCapAt cs) := by
  induction cs with
  | nil => rfl
  | cons c t ih =>
    rw [List.length_cons, List.range_succ_eq_map, List.findSome?_cons]
    have hmap : List.findSome? (specCapAt (c :: t)) ((List.range t.length).map Nat.succ) =
        List.findSome? (specCapAt t) (List.range t.length) := by
      rw [List.findSome?_map]
      have hfun : (specCapAt (c :: t) ∘ Nat.succ) = specCapAt t :=
        funext fun i => specCapAt_succ c t i
      rw [hfun]
    by_cases hs : startsWith placeIdMarker (c :: t) = true
    · by_cases hcap : (((c :: t).drop placeIdMarker.length).takeWhile
          (fun d => !isDelim d)).isEmpty = true
      · have h0 : specCapAt (c :: t) 0 = none := by
          rw [specCapAt_zero, if_pos hs, if_pos hcap]
        rw [h0]
        have hlhs : reSearchPlaceId (c :: t) = reSearchPlaceId t := by
          simp [reSearchPlaceId, hs, hcap]
        rw [hlhs, ih, ← hmap]
      · have h0 : specCapAt (c :: t) 0 =
            some (((c :: t).drop placeIdMarker.length).takeWhile (fun d => !isDelim d)) := by
          rw [specCapAt_zero, if_pos hs, if_neg (by simpa using hcap)]
        rw [h0]
        simp [reSearchPlaceId, hs, hcap]
    · have h0 : specCapAt (c :: t) 0 = none := by
        rw [specCapAt_zero, if_neg (by simpa using hs)]
      rw [h0]
      have hlhs : reSearchPlaceId (c :: t) = reSearchPlaceId t := by
        simp [reSearchPlaceId, hs]
      rw [hlhs, ih, ← hmap]

lemma scanSegments_eq_findSome (l : List (List Char)) :
    scanSegments l = l.findSome? (fun p =>
      let pid := stripSegmentSuffix p
      if isPlausibleId pid then some pid else none) := by
  induction l with
  | nil => rfl
  | cons p t ih =>
    rw [List.findSome?_cons]
    by_cases h : isPlausibleId (stripSegmentSuffix p) = true
    · simp [scanSegments, h]
    · simp [scanSegments, h, ih]

/-- Claim C4 (amended, proved): the extractor agrees everywhere with the
spec reading in which the place_id: branch succeeds exactly at the
leftmost occurrence of the marker followed by at least one non-delimiter
character; a string containing the marker with no such occurrence yields
null without falling through to the /place/ scan; the /place/ scan and
the null cases are as the claim states them. -/
theorem extractor_matches_amended_spec (v : PyVal) :
    extract_place_id_from_url v = specExtractAmendedC4 v := by
  cases v with
  | vNone => rfl
  | vInt n => rfl
  | vRat q => rfl
  | vStr s =>
    simp only [extract_place_id_from_url, specExtractAmendedC4]
    cases hre : reSearchPlaceId s.data with
    | some cap =>
      rw [reSearch_some_contains s.data cap hre]
      rw [← reSearch_eq_spec, hre]
      rfl
    | none =>
      by_cases hc : containsSub placeIdMarker s.data = true
      · rw [hc, ← reSearch_eq_spec, hre]
        simp
      · rw [(by simpa using hc : containsSub placeIdMarker s.data = false)]
        by_cases hp : containsSub placeSegmentMarker s.data = true
        · rw [hp]
          simp only [Bool.not_false, Bool.true_and, if_true, Bool.false_eq_true, if_false]
          rw [scanSegments_eq_findSome]
        · rw [(by simpa using hp : containsSub placeSegmentMarker s.data = false)]
          simp

/-- Counterexample for C4 as stated: in the string place_id:. the
substring after the marker up to the next dot is empty, so the claimed
contract returns the empty string, but the regex capture needs at least
one character, the /place/ branch is blocked because the string contains
place_id:, and the code returns null. -/
theorem extractor_empty_capture_cex :
    specExtractClaimedC4 (.vStr "place_id:.") = some "" ∧
    extract_place_id_from_url (.vStr "place_id:.") = none := by decide
